import Mathlib

/-!
Verification development for the outgoing-share-session engine of the
nearby cross-device transfer repository.

The repository slice under verification contains:
- sharing/outgoing_share_session_test.cc : the test surface of the
  outgoing session state machine (the state machine implementation
  itself is not part of the slice, so it is modelled from the
  specification, with the tests pinning the observable behavior);
- cpp/platform/base/input_stream.cc : the InputStream Skip loop,
  embedded directly from the source.

Stateful session operations are embedded as pure functions from a
Session value to a result, an updated Session, and a list of observable
Effects (frames written to the connection, transfer-metadata callbacks,
payloads handed to the connections manager, analytics log records,
timer callbacks).  The wire codec is out of scope in the repository and
is modelled by structured frame values plus an explicit, invertible
credential encoding.
-/

namespace NearbySharing

/-- TextMetadata type tags of the wire format. -/
inductive TextType where
  | url
  | address
  | text
  | phoneNumber
deriving DecidableEq, Repr

/-- File attachment type tags of the wire format. -/
inductive FileType where
  | unknownFile
  | image
  | video
  | app
  | audio
  | document
deriving DecidableEq, Repr

/-- Wifi security type tags of the wire format. -/
inductive SecurityType where
  | unknownSecurity
  | openNetwork
  | wpaPsk
  | wep
deriving DecidableEq, Repr

/-- Remote OS type recorded by the key-verification gate. -/
inductive OSType where
  | unknownOs
  | android
  | chromeOs
  | ios
  | windows
  | macOs
deriving DecidableEq, Repr

/-- Outcome of the paired-key verification runner. -/
inductive PairedKeyVerificationResult where
  | kFail
  | kSuccess
  | kUnable
  | kUnknown
deriving DecidableEq, Repr

/-- Transfer metadata status values surfaced through the
transfer-metadata callback or returned from response handling. -/
inductive Status where
  | kInProgress
  | kRejected
  | kNotEnoughSpace
  | kUnsupportedAttachmentType
  | kTimedOut
  | kFailedToReadOutgoingConnectionResponse
  | kAwaitingRemoteAcceptance
deriving DecidableEq, Repr

/-- Status carried by a parsed connection-response frame. -/
inductive ConnectionResponseStatus where
  | ACCEPT
  | REJECT
  | NOT_ENOUGH_SPACE
  | UNSUPPORTED_ATTACHMENT_TYPE
  | TIMED_OUT
deriving DecidableEq, Repr

/-- Analytics event types emitted by the session. -/
inductive EventType where
  | SEND_INTRODUCTION
  | SEND_ATTACHMENTS_START
deriving DecidableEq, Repr

/-- A text attachment: id, wire type tag, body, title, mime type and
byte size. -/
structure TextAttachment where
  id : Nat
  ttype : TextType
  textBody : String
  textTitle : String
  mimeType : String
  size : Nat
deriving DecidableEq, Repr

/-- A file attachment: id, path, parent folder, display name, mime
type, wire type tag and recorded byte size (the size is updated in
place when file payloads are created). -/
structure FileAttachment where
  id : Nat
  filePath : String
  parentFolder : String
  fileName : String
  mimeType : String
  ftype : FileType
  size : Nat
deriving DecidableEq, Repr

/-- A structured wifi-credentials attachment. -/
structure WifiCredentialsAttachment where
  id : Nat
  ssid : String
  securityType : SecurityType
  password : String
  isHidden : Bool
deriving DecidableEq, Repr

/-- The attachment container: three ordered attachment sequences. -/
structure AttachmentContainer where
  textAttachments : List TextAttachment
  fileAttachments : List FileAttachment
  wifiAttachments : List WifiCredentialsAttachment
deriving DecidableEq, Repr

/-- Payload content: either a byte buffer (modelled as the character
sequence fed to the opaque serializer) or a file handle with size,
parent folder and path. -/
inductive PayloadContent where
  | bytes (data : List Char)
  | file (size : Nat) (parentFolder : String) (path : String)
deriving DecidableEq, Repr

/-- A transport payload record with its own identity. -/
structure Payload where
  id : Nat
  content : PayloadContent
deriving DecidableEq, Repr

/-- A stat result supplied by the external file handler. -/
structure FileInfo where
  size : Nat
  filePath : String
deriving DecidableEq, Repr

/-- Wire metadata record for one text attachment. -/
structure TextMetadata where
  id : Nat
  textTitle : String
  ttype : TextType
  size : Nat
  payloadId : Nat
deriving DecidableEq, Repr

/-- Wire metadata record for one file attachment. -/
structure FileMetadata where
  id : Nat
  name : String
  ftype : FileType
  size : Nat
  payloadId : Nat
  mimeType : String
deriving DecidableEq, Repr

/-- Wire metadata record for one wifi-credentials attachment. -/
structure WifiCredentialsMetadata where
  id : Nat
  ssid : String
  securityType : SecurityType
  payloadId : Nat
deriving DecidableEq, Repr

/-- Content of a V1 INTRODUCTION frame. -/
structure IntroductionFrameContent where
  startTransfer : Bool
  textMetadata : List TextMetadata
  fileMetadata : List FileMetadata
  wifiCredentialsMetadata : List WifiCredentialsMetadata
deriving DecidableEq, Repr

/-- Content of a V1 PROGRESS_UPDATE frame. -/
structure ProgressUpdateFrameContent where
  startTransfer : Bool
deriving DecidableEq, Repr

/-- The variant-tagged payload of a V1 frame. -/
inductive V1FrameContent where
  | introduction (content : IntroductionFrameContent)
  | progressUpdate (content : ProgressUpdateFrameContent)
  | response (content : ConnectionResponseStatus)
deriving DecidableEq, Repr

/-- The versioned frame envelope. -/
inductive Frame where
  | v1 (content : V1FrameContent)
deriving DecidableEq, Repr

/-- An observable effect of a session operation: a frame written to
the connection, a transfer-metadata callback invocation, an analytics
log record, a payload handed to the connections manager (with a flag
recording whether the payload tracker was attached as its status
listener), the acceptance-timeout callback, or the registered
response-frame callback firing. -/
inductive Effect where
  | wroteFrame (f : Frame)
  | metadataCallback (st : Status)
  | logEvent (e : EventType) (sessionId : Nat)
  | sentPayload (p : Payload) (listenerIsTracker : Bool)
  | timeoutCallback
  | responseCallbackInvoked
deriving DecidableEq, Repr

/-- The outgoing share session state.  Time is modelled in seconds by
an explicit clock; the acceptance timer is an optional absolute
deadline.  Payload ids are drawn from a monotone counter. -/
structure Session where
  sessionId : Nat
  endpointId : String
  container : AttachmentContainer
  textPayloads : List Payload
  filePayloads : List Payload
  wifiPayloads : List Payload
  attachmentPayloadMap : List (Nat × Nat)
  nextPayloadId : Nat
  connected : Bool
  token : Option String
  osType : Option OSType
  clock : Nat
  timerDeadline : Option Nat
  responseCallbackRegistered : Bool
  trackerStrongOwned : Bool
  sendCursor : Nat
deriving DecidableEq, Repr

/-- A session as freshly constructed: identity bound, container set,
no network activity yet. -/
def freshSession (c : AttachmentContainer) : Session where
  sessionId := 0
  endpointId := "ABCD"
  container := c
  textPayloads := []
  filePayloads := []
  wifiPayloads := []
  attachmentPayloadMap := []
  nextPayloadId := 0
  connected := false
  token := none
  osType := none
  clock := 0
  timerDeadline := none
  responseCallbackRegistered := false
  trackerStrongOwned := false
  sendCursor := 0

/-- Modelled from the spec: OnConnected binds the session to a live
transport handle; no frames are produced. -/
def onConnected (s : Session) : Session :=
  { s with connected := true }

/-- Payloads built for a list of attachments, assigning consecutive
fresh payload ids starting at the given counter value. -/
def payloadsFrom {α : Type} (mk : Nat → α → Payload) : Nat → List α → List Payload
  | _, [] => []
  | start, a :: rest => mk start a :: payloadsFrom mk (start + 1) rest

/-- Attachment-payload map entries for a list of attachments whose
payloads receive consecutive ids starting at the given counter. -/
def mapEntriesFrom {α : Type} (key : α → Nat) : Nat → List α → List (Nat × Nat)
  | _, [] => []
  | start, a :: rest => (key a, start) :: mapEntriesFrom key (start + 1) rest

/-- A bytes payload holding the UTF-8 body of one text attachment. -/
def mkTextPayload (pid : Nat) (a : TextAttachment) : Payload :=
  { id := pid, content := PayloadContent.bytes a.textBody.toList }

/-- Modelled from the spec: CreateTextPayloads builds one bytes
payload per text attachment, in container order, and records each
attachment-to-payload id pair in the map. -/
def createTextPayloads (s : Session) : Session :=
  { s with
    textPayloads := s.textPayloads ++
      payloadsFrom mkTextPayload s.nextPayloadId s.container.textAttachments,
    attachmentPayloadMap := s.attachmentPayloadMap ++
      mapEntriesFrom TextAttachment.id s.nextPayloadId s.container.textAttachments,
    nextPayloadId := s.nextPayloadId + s.container.textAttachments.length }

/-- The size update applied to a file attachment when its stat result
arrives. -/
def updateFileSize (a : FileAttachment) (info : FileInfo) : FileAttachment :=
  { a with size := info.size }

/-- A file payload carrying the (updated) size, parent folder and file
path of one file attachment. -/
def mkFilePayload (pid : Nat) (a : FileAttachment) : Payload :=
  { id := pid, content := PayloadContent.file a.size a.parentFolder a.filePath }

/-- Modelled from the spec: CreateFilePayloads fails without touching
the session when the stat-result count differs from the file
attachment count; otherwise it updates each attachment size in the
container, builds one file payload per attachment and records the id
pairs in the map. -/
def createFilePayloads (s : Session) (infos : List FileInfo) : Bool × Session :=
  if infos.length = s.container.fileAttachments.length then
    (true,
     { s with
       container := { s.container with
         fileAttachments := List.zipWith updateFileSize s.container.fileAttachments infos },
       filePayloads := s.filePayloads ++
         payloadsFrom mkFilePayload s.nextPayloadId
           (List.zipWith updateFileSize s.container.fileAttachments infos),
       attachmentPayloadMap := s.attachmentPayloadMap ++
         mapEntriesFrom FileAttachment.id s.nextPayloadId
           (List.zipWith updateFileSize s.container.fileAttachments infos),
       nextPayloadId := s.nextPayloadId +
         (List.zipWith updateFileSize s.container.fileAttachments infos).length })
  else (false, s)

/-- Serialization of the wifi-credentials sub-message (password and
hidden-ssid flag) by the opaque codec, modelled invertibly. -/
def encodeWifiCredentials (password : String) (hiddenSsid : Bool) : List Char :=
  (if hiddenSsid then '1' else '0') :: password.toList

/-- Decoder matching the credential encoding above. -/
def decodeWifiCredentials : List Char → Option (String × Bool)
  | [] => none
  | flag :: rest => some (String.mk rest, flag == '1')

/-- A bytes payload holding the serialized credentials of one
wifi-credentials attachment. -/
def mkWifiPayload (pid : Nat) (a : WifiCredentialsAttachment) : Payload :=
  { id := pid, content := PayloadContent.bytes (encodeWifiCredentials a.password a.isHidden) }

/-- Modelled from the spec and pinned by the tests: the created
wifi-credential payloads are held in their own sequence (the tests
read them back through the wifi accessor and the send tests dispatch
only file and text payloads), with the id pairs recorded in the map. -/
def createWifiCredentialsPayloads (s : Session) : Session :=
  { s with
    wifiPayloads := s.wifiPayloads ++
      payloadsFrom mkWifiPayload s.nextPayloadId s.container.wifiAttachments,
    attachmentPayloadMap := s.attachmentPayloadMap ++
      mapEntriesFrom WifiCredentialsAttachment.id s.nextPayloadId s.container.wifiAttachments,
    nextPayloadId := s.nextPayloadId + s.container.wifiAttachments.length }

/-- True when all three payload sequences of the session are empty. -/
def allPayloadsEmpty (s : Session) : Bool :=
  s.textPayloads.isEmpty && s.filePayloads.isEmpty && s.wifiPayloads.isEmpty

/-- Lookup in the attachment-payload map (first matching key wins). -/
def lookupId : List (Nat × Nat) → Nat → Option Nat
  | [], _ => none
  | (k, v) :: rest, a => if a = k then some v else lookupId rest a

/-- Payload id stamped into a wire metadata record: the map entry for
the attachment id (the lookup succeeds whenever the payload for the
attachment has been created). -/
def lookupPayloadId (m : List (Nat × Nat)) (attachmentId : Nat) : Nat :=
  (lookupId m attachmentId).getD 0

/-- Wire metadata for one text attachment. -/
def textMetadataOf (m : List (Nat × Nat)) (a : TextAttachment) : TextMetadata :=
  { id := a.id, textTitle := a.textTitle, ttype := a.ttype, size := a.size,
    payloadId := lookupPayloadId m a.id }

/-- Wire metadata for one file attachment. -/
def fileMetadataOf (m : List (Nat × Nat)) (a : FileAttachment) : FileMetadata :=
  { id := a.id, name := a.fileName, ftype := a.ftype, size := a.size,
    payloadId := lookupPayloadId m a.id, mimeType := a.mimeType }

/-- Wire metadata for one wifi-credentials attachment. -/
def wifiMetadataOf (m : List (Nat × Nat)) (a : WifiCredentialsAttachment) : WifiCredentialsMetadata :=
  { id := a.id, ssid := a.ssid, securityType := a.securityType,
    payloadId := lookupPayloadId m a.id }

/-- The introduction frame content built from the session container
and attachment-payload map. -/
def introFrameContent (s : Session) : IntroductionFrameContent :=
  { startTransfer := true,
    textMetadata := s.container.textAttachments.map (textMetadataOf s.attachmentPayloadMap),
    fileMetadata := s.container.fileAttachments.map (fileMetadataOf s.attachmentPayloadMap),
    wifiCredentialsMetadata :=
      s.container.wifiAttachments.map (wifiMetadataOf s.attachmentPayloadMap) }

/-- The acceptance timeout in seconds. -/
def kAcceptanceTimeout : Nat := 60

/-- Modelled from the spec: SendIntroduction fails with no frame
written when no payloads exist; otherwise it writes the introduction
frame, logs a SEND_INTRODUCTION event and arms the 60-second
acceptance-timeout timer. -/
def sendIntroduction (s : Session) : Bool × Session × List Effect :=
  if allPayloadsEmpty s then (false, s, [])
  else
    (true,
     { s with timerDeadline := some (s.clock + kAcceptanceTimeout) },
     [Effect.wroteFrame (Frame.v1 (V1FrameContent.introduction (introFrameContent s))),
      Effect.logEvent EventType.SEND_INTRODUCTION s.sessionId])

/-- Modelled from the spec: advancing the injected clock; when the
armed acceptance deadline is reached the timeout callback fires and
the timer is disarmed, so it can fire at most once. -/
def advanceClock (s : Session) (d : Nat) : Session × List Effect :=
  match s.timerDeadline with
  | some t =>
      if t ≤ s.clock + d then
        ({ s with clock := s.clock + d, timerDeadline := none }, [Effect.timeoutCallback])
      else ({ s with clock := s.clock + d }, [])
  | none => ({ s with clock := s.clock + d }, [])

/-- Modelled from the spec: HandleConnectionResponse maps each
non-ACCEPT response (and an absent one) to its terminal status with no
side effects; on ACCEPT it returns no status, cancels the acceptance
timer, invokes the transfer-metadata callback with kInProgress and
writes a progress-update frame with start transfer set. -/
def handleConnectionResponse (s : Session) (response : Option ConnectionResponseStatus) :
    Option Status × Session × List Effect :=
  match response with
  | none => (some Status.kFailedToReadOutgoingConnectionResponse, s, [])
  | some ConnectionResponseStatus.REJECT => (some Status.kRejected, s, [])
  | some ConnectionResponseStatus.NOT_ENOUGH_SPACE => (some Status.kNotEnoughSpace, s, [])
  | some ConnectionResponseStatus.UNSUPPORTED_ATTACHMENT_TYPE =>
      (some Status.kUnsupportedAttachmentType, s, [])
  | some ConnectionResponseStatus.TIMED_OUT => (some Status.kTimedOut, s, [])
  | some ConnectionResponseStatus.ACCEPT =>
      (none,
       { s with timerDeadline := none },
       [Effect.metadataCallback Status.kInProgress,
        Effect.wroteFrame (Frame.v1 (V1FrameContent.progressUpdate { startTransfer := true }))])

/-- True for RESPONSE-type frames. -/
def isResponseFrame : Frame → Bool
  | Frame.v1 (V1FrameContent.response _) => true
  | _ => false

/-- Modelled from the spec: AcceptTransfer fails with no state change
when no connection is bound or no payloads were created; on success it
invokes the transfer-metadata callback with kAwaitingRemoteAcceptance
synchronously and registers the response-frame callback. -/
def acceptTransfer (s : Session) : Bool × Session × List Effect :=
  if s.connected = false then (false, s, [])
  else if allPayloadsEmpty s then (false, s, [])
  else
    (true,
     { s with responseCallbackRegistered := true },
     [Effect.metadataCallback Status.kAwaitingRemoteAcceptance])

/-- Modelled from the spec: delivery of one frame read off the
connection; the registered response-frame callback fires on the next
RESPONSE-type frame and is then deregistered. -/
def onFrameRead (s : Session) (f : Frame) : Session × List Effect :=
  if s.responseCallbackRegistered && isResponseFrame f then
    ({ s with responseCallbackRegistered := false }, [Effect.responseCallbackInvoked])
  else (s, [])

/-- Modelled from the spec: ProcessKeyVerificationResult always
records the remote OS type and returns true exactly on success; the
token is untouched. -/
def processKeyVerificationResult (s : Session) (result : PairedKeyVerificationResult)
    (remoteOsType : OSType) : Bool × Session :=
  match result with
  | PairedKeyVerificationResult.kSuccess => (true, { s with osType := some remoteOsType })
  | _ => (false, { s with osType := some remoteOsType })

/-- The dispatch queue of SendPayloads and SendNextPayload: file
payloads before text payloads.  The send tests pin that wifi-credential
payloads are not part of this queue (exactly one send per file and
text payload is expected there). -/
def sendQueue (s : Session) : List Payload :=
  s.filePayloads ++ s.textPayloads

/-- Modelled from the spec and pinned by the tests: SendPayloads logs
a SEND_ATTACHMENTS_START event, hands the payload tracker to the
connections manager as strong-owned listener and, with the
cancellation optimization enabled, sends only the first queued
payload; with it disabled it sends every queued payload at once.  Each
send is tagged with the tracker as status listener. -/
def sendPayloads (s : Session) (enableCancellationOptimization : Bool) :
    Session × List Effect :=
  if enableCancellationOptimization then
    ({ s with trackerStrongOwned := true, sendCursor := ((sendQueue s).take 1).length },
     Effect.logEvent EventType.SEND_ATTACHMENTS_START s.sessionId ::
       ((sendQueue s).take 1).map (fun p => Effect.sentPayload p true))
  else
    ({ s with trackerStrongOwned := true, sendCursor := (sendQueue s).length },
     Effect.logEvent EventType.SEND_ATTACHMENTS_START s.sessionId ::
       (sendQueue s).map (fun p => Effect.sentPayload p true))

/-- Modelled from the spec: SendNextPayload sends the next not yet
dispatched queued payload, advancing the internal cursor; once the
queue is exhausted it is a no-op. -/
def sendNextPayload (s : Session) : Session × List Effect :=
  match (sendQueue s).drop s.sendCursor with
  | [] => (s, [])
  | p :: _ => ({ s with sendCursor := s.sendCursor + 1 }, [Effect.sentPayload p true])

/-- Repeated invocation of SendNextPayload, collecting all effects. -/
def iterateSendNext : Session → Nat → Session × List Effect
  | s, 0 => (s, [])
  | s, k + 1 =>
      (( iterateSendNext (sendNextPayload s).1 k).1,
       (sendNextPayload s).2 ++ (iterateSendNext (sendNextPayload s).1 k).2)

/-- The weak reference to the payload tracker is lockable exactly when
the strong owner (the connections manager) holds the tracker. -/
def payloadTrackerLockable (s : Session) : Bool :=
  s.trackerStrongOwned

/-- Payloads extracted from an effect list, in order. -/
def sentPayloads : List Effect → List Payload
  | [] => []
  | Effect.sentPayload p _ :: rest => p :: sentPayloads rest
  | _ :: rest => sentPayloads rest

/-- Number of timeout-callback effects in an effect list. -/
def countTimeouts (l : List Effect) : Nat :=
  l.countP (fun e => e = Effect.timeoutCallback)

/-- All attachment ids of a container, in map construction order
(file, text, wifi). -/
def containerIds (c : AttachmentContainer) : List Nat :=
  c.fileAttachments.map FileAttachment.id ++
    (c.textAttachments.map TextAttachment.id ++
      c.wifiAttachments.map WifiCredentialsAttachment.id)

/-- The session state exercised by the introduction and payload tests:
a fresh session whose payloads have been created in the order file,
text, wifi. -/
def sessionAfterCreates (c : AttachmentContainer) (infos : List FileInfo) : Session :=
  createWifiCredentialsPayloads (createTextPayloads (createFilePayloads (freshSession c) infos).2)

/-- Exception kinds of the platform Exception type. -/
inductive Exception where
  | kFailed
  | kIo
  | kInterrupted
  | kInvalidProtocolBuffer
  | kExecution
  | kTimeout
deriving DecidableEq, Repr

/-- Byte buffers returned by Read. -/
abbrev Bytes := List Nat

/-- Buffer size of the Skip loop, 64 * 1024 bytes. -/
def kSkipBufferSize : Nat := 64 * 1024

/-- The Skip loop of InputStream (input_stream.cc): starting from the
remaining byte count it repeatedly issues Read for
min(bytes_left, kSkipBufferSize) bytes, subtracting the requested
chunk size from bytes_left regardless of how many bytes the returned
buffer holds; reads are indexed by their call number.  The result
records the requested sizes of all issued Read calls together with the
exception of the first failing Read, if any. -/
def skipRun (read : Nat → Nat → Except Exception Bytes) (i : Nat) (bytesLeft : Nat) :
    List Nat × Option Exception :=
  if _h : 0 < bytesLeft then
    match read i (min bytesLeft kSkipBufferSize) with
    | Except.error e => ([min bytesLeft kSkipBufferSize], some e)
    | Except.ok _ =>
        let r := skipRun read (i + 1) (bytesLeft - min bytesLeft kSkipBufferSize)
        (min bytesLeft kSkipBufferSize :: r.1, r.2)
  else ([], none)
termination_by bytesLeft
decreasing_by simp only [kSkipBufferSize]; omega

/-- InputStream Skip (input_stream.cc): runs the loop above from the
full offset; on success it returns the offset, otherwise the exception
of the failing Read. -/
def InputStream.Skip (read : Nat → Nat → Except Exception Bytes) (offset : Nat) :
    Except Exception Nat :=
  match (skipRun read 0 offset).2 with
  | some e => Except.error e
  | none => Except.ok offset

/-- The canonical sequence of chunk sizes the Skip loop requests for a
given remaining byte count; it depends only on that count. -/
def skipRequests (bytesLeft : Nat) : List Nat :=
  if _h : 0 < bytesLeft then
    min bytesLeft kSkipBufferSize :: skipRequests (bytesLeft - min bytesLeft kSkipBufferSize)
  else []
termination_by bytesLeft
decreasing_by simp only [kSkipBufferSize]; omega

/-- First text attachment of the test fixture. -/
def text1 : TextAttachment :=
  { id := 1, ttype := TextType.url, textBody := "body1", textTitle := "title1",
    mimeType := "text/html", size := 18 }

/-- Second text attachment of the test fixture. -/
def text2 : TextAttachment :=
  { id := 2, ttype := TextType.address, textBody := "body2", textTitle := "title2",
    mimeType := "text/plain", size := 20 }

/-- File attachment of the test fixture. -/
def file1 : FileAttachment :=
  { id := 3, filePath := "/tmp/a.jpg", parentFolder := "/tmp", fileName := "a.jpg",
    mimeType := "image/jpeg", ftype := FileType.image, size := 0 }

/-- Wifi-credentials attachment of the test fixture. -/
def wifi1 : WifiCredentialsAttachment :=
  { id := 4, ssid := "GoogleGuest", securityType := SecurityType.wpaPsk,
    password := "somepassword", isHidden := true }

/-- The attachment container of the test fixture: two texts, one file,
one wifi credential set. -/
def exampleContainer : AttachmentContainer :=
  { textAttachments := [text1, text2], fileAttachments := [file1],
    wifiAttachments := [wifi1] }

/-- The stat results supplied for the file attachment in the tests. -/
def exampleInfos : List FileInfo :=
  [{ size := 12355, filePath := "/tmp/a.jpg" }]

/-- The fixture session with all payloads created. -/
def exampleSession : Session :=
  sessionAfterCreates exampleContainer exampleInfos

/-! Helper lemmas about the payload and map builders. -/

theorem payloadsFrom_length {α : Type} (mk : Nat → α → Payload) (start : Nat) (l : List α) :
    (payloadsFrom mk start l).length = l.length := by
  induction l generalizing start with
  | nil => rfl
  | cons a rest ih => simp [payloadsFrom, ih]

theorem payloadsFrom_get {α : Type} (mk : Nat → α → Payload) (l : List α) :
    ∀ (start i : Nat) (hi : i < l.length),
      (payloadsFrom mk start l).get ⟨i, by rw [payloadsFrom_length]; exact hi⟩ =
        mk (start + i) (l.get ⟨i, hi⟩) := by
  induction l with
  | nil => intro start i hi; exact absurd hi (Nat.not_lt_zero i)
  | cons a rest ih =>
      intro start i hi
      cases i with
      | zero => rfl
      | succ j =>
          have hj : j < rest.length := Nat.lt_of_succ_lt_succ hi
          have := ih (start + 1) j hj
          simpa [payloadsFrom, Nat.add_assoc, Nat.add_comm 1 j] using this

theorem mapEntriesFrom_keys {α : Type} (key : α → Nat) (start : Nat) (l : List α) :
    (mapEntriesFrom key start l).map Prod.fst = l.map key := by
  induction l generalizing start with
  | nil => rfl
  | cons a rest ih => simp [mapEntriesFrom, ih]

theorem lookupId_append_right (xs ys : List (Nat × Nat)) (k : Nat)
    (h : k ∉ xs.map Prod.fst) : lookupId (xs ++ ys) k = lookupId ys k := by
  induction xs with
  | nil => rfl
  | cons p rest ih =>
      simp only [List.map_cons, List.mem_cons, not_or] at h
      obtain ⟨h1, h2⟩ := h
      obtain ⟨a, b⟩ := p
      simp only [List.cons_append, lookupId, if_neg h1]
      exact ih h2

theorem lookupId_append_left (xs ys : List (Nat × Nat)) (k v : Nat)
    (h : lookupId xs k = some v) : lookupId (xs ++ ys) k = some v := by
  induction xs with
  | nil => simp [lookupId] at h
  | cons p rest ih =>
      obtain ⟨a, b⟩ := p
      by_cases hk : k = a
      · simp only [lookupId, if_pos hk] at h
        simp only [List.cons_append, lookupId, if_pos hk]
        exact h
      · simp only [lookupId, if_neg hk] at h
        simp only [List.cons_append, lookupId, if_neg hk]
        exact ih h

theorem mapEntriesFrom_lookupId {α : Type} (key : α → Nat) (l : List α)
    (hnd : (l.map key).Nodup) :
    ∀ (start i : Nat) (hi : i < l.length),
      lookupId (mapEntriesFrom key start l) (key (l.get ⟨i, hi⟩)) = some (start + i) := by
  induction l with
  | nil => intro start i hi; exact absurd hi (Nat.not_lt_zero i)
  | cons a rest ih =>
      intro start i hi
      simp only [List.map_cons, List.nodup_cons] at hnd
      obtain ⟨hna, hnr⟩ := hnd
      cases i with
      | zero => simp [mapEntriesFrom, lookupId]
      | succ j =>
          have hj : j < rest.length := Nat.lt_of_succ_lt_succ hi
          have hmem : key (rest.get ⟨j, hj⟩) ∈ rest.map key :=
            List.mem_map_of_mem key (List.get_mem rest j hj)
          have hne : key (rest.get ⟨j, hj⟩) ≠ key a := by
            intro he; exact hna (he ▸ hmem)
          have := ih hnr (start + 1) j hj
          simp only [mapEntriesFrom, lookupId, List.get]
          rw [if_neg (by simpa using hne)]
          simpa [Nat.add_assoc, Nat.add_comm 1 j] using this

theorem map_build_eq_zipWith {α β : Type} (build : α → Nat → β) (key : α → Nat)
    (mk : Nat → α → Payload) (hid : ∀ n a, (mk n a).id = n) (m : List (Nat × Nat)) :
    ∀ (l : List α) (start : Nat),
      (∀ (i : Nat) (hi : i < l.length),
          lookupId m (key (l.get ⟨i, hi⟩)) = some (start + i)) →
      l.map (fun a => build a ((lookupId m (key a)).getD 0)) =
        List.zipWith (fun a p => build a p.id) l (payloadsFrom mk start l) := by
  intro l
  induction l with
  | nil => intro start _; rfl
  | cons a rest ih =>
      intro start hlk
      have h0 := hlk 0 (Nat.succ_pos rest.length)
      simp only [List.get] at h0
      simp only [List.map_cons, payloadsFrom, List.zipWith_cons_cons]
      refine congrArg₂ (· :: ·) ?_ ?_
      · rw [h0, hid]
        rfl
      · refine ih (start + 1) ?_
        intro i hi
        have := hlk (i + 1) (Nat.succ_lt_succ hi)
        simpa [Nat.add_assoc, Nat.add_comm 1 i] using this

theorem zipWith_updateFileSize_id (files : List FileAttachment) (infos : List FileInfo)
    (h : infos.length = files.length) :
    (List.zipWith updateFileSize files infos).map FileAttachment.id =
      files.map FileAttachment.id := by
  induction files generalizing infos with
  | nil => simp
  | cons a rest ih =>
      cases infos with
      | nil => simp at h
      | cons info irest =>
          simp only [List.length_cons] at h
          simp [updateFileSize, ih irest (Nat.succ_injective h)]

theorem zipWith_updateFileSize_size (files : List FileAttachment) (infos : List FileInfo)
    (h : infos.length = files.length) :
    (List.zipWith updateFileSize files infos).map FileAttachment.size =
      infos.map FileInfo.size := by
  induction files generalizing infos with
  | nil => cases infos with
      | nil => simp
      | cons info irest => simp at h
  | cons a rest ih =>
      cases infos with
      | nil => simp at h
      | cons info irest =>
          simp only [List.length_cons] at h
          simp [updateFileSize, ih irest (Nat.succ_injective h)]

/-! Claim theorems. -/

/-- C1: for every parsed connection-response input,
HandleConnectionResponse returns exactly the status given by the
mapping absent to kFailedToReadOutgoingConnectionResponse, REJECT to
kRejected, NOT_ENOUGH_SPACE to kNotEnoughSpace,
UNSUPPORTED_ATTACHMENT_TYPE to kUnsupportedAttachmentType and
TIMED_OUT to kTimedOut, with no side effects; for ACCEPT it returns an
absent result while invoking the transfer-metadata callback with
kInProgress and writing a progress-update frame with start transfer
set. -/
theorem handleConnectionResponse_spec (s : Session) :
    handleConnectionResponse s none =
      (some Status.kFailedToReadOutgoingConnectionResponse, s, []) ∧
    handleConnectionResponse s (some ConnectionResponseStatus.REJECT) =
      (some Status.kRejected, s, []) ∧
    handleConnectionResponse s (some ConnectionResponseStatus.NOT_ENOUGH_SPACE) =
      (some Status.kNotEnoughSpace, s, []) ∧
    handleConnectionResponse s (some ConnectionResponseStatus.UNSUPPORTED_ATTACHMENT_TYPE) =
      (some Status.kUnsupportedAttachmentType, s, []) ∧
    handleConnectionResponse s (some ConnectionResponseStatus.TIMED_OUT) =
      (some Status.kTimedOut, s, []) ∧
    (handleConnectionResponse s (some ConnectionResponseStatus.ACCEPT)).1 = none ∧
    (handleConnectionResponse s (some ConnectionResponseStatus.ACCEPT)).2.2 =
      [Effect.metadataCallback Status.kInProgress,
       Effect.wroteFrame (Frame.v1 (V1FrameContent.progressUpdate { startTransfer := true }))] :=
  ⟨rfl, rfl, rfl, rfl, rfl, rfl, rfl⟩

/-- C9: ProcessKeyVerificationResult records the remote OS type for
every result value, returns true exactly when the result is kSuccess,
and leaves the stored token unchanged. -/
theorem processKeyVerificationResult_spec (s : Session)
    (result : PairedKeyVerificationResult) (remoteOsType : OSType) :
    (processKeyVerificationResult s result remoteOsType).2.osType = some remoteOsType ∧
    ((processKeyVerificationResult s result remoteOsType).1 = true ↔
      result = PairedKeyVerificationResult.kSuccess) ∧
    (processKeyVerificationResult s result remoteOsType).2.token = s.token := by
  cases result <;> simp [processKeyVerificationResult]

/-- C2: after a successful SendIntroduction arms the 60-second
acceptance timer, advancing the clock by at least 60 seconds with no
response processed fires the timeout callback exactly once (and never
again); if an ACCEPT response is processed before the timer fires, the
timeout callback never fires, even after the clock is advanced past
the deadline. -/
theorem acceptanceTimer_race (s : Session) (h : (sendIntroduction s).1 = true) :
    (∀ d, kAcceptanceTimeout ≤ d →
        countTimeouts (advanceClock (sendIntroduction s).2.1 d).2 = 1 ∧
        ∀ d2, countTimeouts
            (advanceClock (advanceClock (sendIntroduction s).2.1 d).1 d2).2 = 0) ∧
    (∀ d1, d1 < kAcceptanceTimeout →
        countTimeouts (advanceClock (sendIntroduction s).2.1 d1).2 = 0 ∧
        ∀ d2, countTimeouts
            (advanceClock
              (handleConnectionResponse
                (advanceClock (sendIntroduction s).2.1 d1).1
                (some ConnectionResponseStatus.ACCEPT)).2.1 d2).2 = 0) ∧
    (∀ d2, countTimeouts
        (advanceClock
          (handleConnectionResponse (sendIntroduction s).2.1
            (some ConnectionResponseStatus.ACCEPT)).2.1 d2).2 = 0) := by
  by_cases he : allPayloadsEmpty s
  · simp [sendIntroduction, he] at h
  · have hs : (sendIntroduction s).2.1 =
        { s with timerDeadline := some (s.clock + kAcceptanceTimeout) } := by
      simp [sendIntroduction, he]
    rw [hs]
    refine ⟨?_, ?_, ?_⟩
    · intro d hd
      have hcond : s.clock + kAcceptanceTimeout ≤ s.clock + d := by omega
      constructor
      · simp [advanceClock, hcond, countTimeouts]
      · intro d2
        simp [advanceClock, hcond, countTimeouts]
    · intro d1 hd1
      have hcond : ¬ (s.clock + kAcceptanceTimeout ≤ s.clock + d1) := by omega
      constructor
      · simp [advanceClock, hcond, countTimeouts]
      · intro d2
        simp [advanceClock, hcond, handleConnectionResponse, countTimeouts]
    · intro d2
      simp [advanceClock, handleConnectionResponse, countTimeouts]

/-- Witness for the acceptance-timer theorem: at the fixture session
the introduction succeeds, advancing 60 seconds fires the timeout
once, and after an immediate ACCEPT no timeout fires even after 120
more seconds. -/
theorem acceptanceTimer_race_witness :
    countTimeouts (advanceClock (sendIntroduction exampleSession).2.1 60).2 = 1 ∧
    countTimeouts
      (advanceClock
        (handleConnectionResponse (sendIntroduction exampleSession).2.1
          (some ConnectionResponseStatus.ACCEPT)).2.1 120).2 = 0 :=
  ⟨((acceptanceTimer_race exampleSession rfl).1 60 (by decide)).1,
   (acceptanceTimer_race exampleSession rfl).2.2 120⟩

theorem sentPayloads_append (l1 l2 : List Effect) :
    sentPayloads (l1 ++ l2) = sentPayloads l1 ++ sentPayloads l2 := by
  induction l1 with
  | nil => rfl
  | cons e rest ih => cases e <;> simp [sentPayloads, ih]

theorem payloadsFrom_map_content {α : Type} (mk : Nat → α → Payload)
    (g : α → PayloadContent) (hc : ∀ n a, (mk n a).content = g a) :
    ∀ (start : Nat) (l : List α),
      (payloadsFrom mk start l).map Payload.content = l.map g := by
  intro start l
  induction l generalizing start with
  | nil => rfl
  | cons a rest ih => simp [payloadsFrom, hc, ih]

theorem mapEntriesFrom_eq_zipWith {α : Type} (key : α → Nat) (mk : Nat → α → Payload)
    (hid : ∀ n a, (mk n a).id = n) :
    ∀ (start : Nat) (l : List α),
      mapEntriesFrom key start l =
        List.zipWith (fun a p => (key a, p.id)) l (payloadsFrom mk start l) := by
  intro start l
  induction l generalizing start with
  | nil => rfl
  | cons a rest ih => simp [payloadsFrom, mapEntriesFrom, hid, ih]

theorem iterateSendNext_trace (s : Session) (k : Nat) :
    sentPayloads (iterateSendNext s k).2 =
      ((sendQueue s).drop s.sendCursor).take k := by
  induction k generalizing s with
  | zero => simp [iterateSendNext, sentPayloads]
  | succ k ih =>
      cases hq : (sendQueue s).drop s.sendCursor with
      | nil =>
          have hnext : sendNextPayload s = (s, []) := by
            simp [sendNextPayload, hq]
          simp [iterateSendNext, hnext, sentPayloads_append, sentPayloads, ih, hq]
      | cons p rest =>
          have hnext : sendNextPayload s =
              ({ s with sendCursor := s.sendCursor + 1 }, [Effect.sentPayload p true]) := by
            simp [sendNextPayload, hq]
          have hrest : (sendQueue s).drop (s.sendCursor + 1) = rest := by
            rw [← List.tail_drop, hq, List.tail_cons]
          have := ih { s with sendCursor := s.sendCursor + 1 }
          simp only [sendQueue] at this hrest ⊢
          simp [iterateSendNext, hnext, sentPayloads_append, sentPayloads, this, hq, hrest,
                List.tail_cons]

/-- C8: AcceptTransfer fails without mutating the session when no
connection is bound or when no payloads have been created; with both
in place it succeeds, synchronously invokes the transfer-metadata
callback with kAwaitingRemoteAcceptance, and registers the response
callback, which then fires on the next RESPONSE-type frame read off
the connection. -/
theorem acceptTransfer_spec (s : Session) :
    (s.connected = false → acceptTransfer s = (false, s, [])) ∧
    (allPayloadsEmpty s = true → acceptTransfer s = (false, s, [])) ∧
    (s.connected = true → allPayloadsEmpty s = false →
      (acceptTransfer s).1 = true ∧
      (acceptTransfer s).2.2 = [Effect.metadataCallback Status.kAwaitingRemoteAcceptance] ∧
      (acceptTransfer s).2.1.responseCallbackRegistered = true ∧
      ∀ f, isResponseFrame f = true →
        (onFrameRead (acceptTransfer s).2.1 f).2 = [Effect.responseCallbackInvoked]) := by
  refine ⟨?_, ?_, ?_⟩
  · intro hc
    simp [acceptTransfer, hc]
  · intro hp
    cases hc : s.connected with
    | false => simp [acceptTransfer, hc]
    | true => simp [acceptTransfer, hc, hp]
  · intro hc hp
    refine ⟨by simp [acceptTransfer, hc, hp], by simp [acceptTransfer, hc, hp],
            by simp [acceptTransfer, hc, hp], ?_⟩
    intro f hf
    simp [acceptTransfer, hc, hp, onFrameRead, hf]

/-- Witness for the AcceptTransfer theorem: the fixture session fails
before a connection is bound and succeeds after binding one, firing
the registered callback on a RESPONSE frame. -/
theorem acceptTransfer_spec_witness :
    acceptTransfer exampleSession = (false, exampleSession, []) ∧
    (acceptTransfer (onConnected exampleSession)).1 = true ∧
    (onFrameRead (acceptTransfer (onConnected exampleSession)).2.1
        (Frame.v1 (V1FrameContent.response ConnectionResponseStatus.ACCEPT))).2 =
      [Effect.responseCallbackInvoked] :=
  ⟨(acceptTransfer_spec exampleSession).1 rfl,
   (((acceptTransfer_spec (onConnected exampleSession)).2.2 rfl rfl).1),
   (((acceptTransfer_spec (onConnected exampleSession)).2.2 rfl rfl).2.2.2
     (Frame.v1 (V1FrameContent.response ConnectionResponseStatus.ACCEPT)) rfl)⟩

/-- C6: CreateFilePayloads fails and leaves the session unchanged when
the stat-result count differs from the file attachment count; with a
matching count it succeeds, rewrites each file attachment size to the
matching stat size (ids untouched), appends one file payload per
attachment carrying that size, the parent folder and the file path,
and records the attachment-to-payload id pairs in the map. -/
theorem createFilePayloads_spec (s : Session) (infos : List FileInfo) :
    (infos.length ≠ s.container.fileAttachments.length →
      createFilePayloads s infos = (false, s)) ∧
    (infos.length = s.container.fileAttachments.length →
      (createFilePayloads s infos).1 = true ∧
      ((createFilePayloads s infos).2.container.fileAttachments.map FileAttachment.id =
        s.container.fileAttachments.map FileAttachment.id) ∧
      ((createFilePayloads s infos).2.container.fileAttachments.map FileAttachment.size =
        infos.map FileInfo.size) ∧
      ((createFilePayloads s infos).2.filePayloads.take s.filePayloads.length =
        s.filePayloads) ∧
      (((createFilePayloads s infos).2.filePayloads.drop s.filePayloads.length).map
          Payload.content =
        List.zipWith
          (fun (a : FileAttachment) (info : FileInfo) =>
            PayloadContent.file info.size a.parentFolder a.filePath)
          s.container.fileAttachments infos) ∧
      ((createFilePayloads s infos).2.attachmentPayloadMap =
        s.attachmentPayloadMap ++
          List.zipWith (fun (a : FileAttachment) (p : Payload) => (a.id, p.id))
            (createFilePayloads s infos).2.container.fileAttachments
            ((createFilePayloads s infos).2.filePayloads.drop s.filePayloads.length))) := by
  constructor
  · intro hne
    simp [createFilePayloads, hne]
  · intro hlen
    have h1 : (createFilePayloads s infos).1 = true := by
      simp [createFilePayloads, hlen]
    have hcont : (createFilePayloads s infos).2.container.fileAttachments =
        List.zipWith updateFileSize s.container.fileAttachments infos := by
      simp [createFilePayloads, hlen]
    have hpay : (createFilePayloads s infos).2.filePayloads =
        s.filePayloads ++
          payloadsFrom mkFilePayload s.nextPayloadId
            (List.zipWith updateFileSize s.container.fileAttachments infos) := by
      simp [createFilePayloads, hlen]
    have hmap : (createFilePayloads s infos).2.attachmentPayloadMap =
        s.attachmentPayloadMap ++
          mapEntriesFrom FileAttachment.id s.nextPayloadId
            (List.zipWith updateFileSize s.container.fileAttachments infos) := by
      simp [createFilePayloads, hlen]
    refine ⟨h1, ?_, ?_, ?_, ?_, ?_⟩
    · rw [hcont]
      exact zipWith_updateFileSize_id s.container.fileAttachments infos hlen
    · rw [hcont]
      exact zipWith_updateFileSize_size s.container.fileAttachments infos hlen
    · rw [hpay, List.take_left]
    · rw [hpay, List.drop_left]
      rw [payloadsFrom_map_content mkFilePayload
            (fun a => PayloadContent.file a.size a.parentFolder a.filePath)
            (fun n a => rfl)]
      rw [List.map_zipWith]
      rfl
    · rw [hmap, hcont, hpay, List.drop_left]
      rw [mapEntriesFrom_eq_zipWith FileAttachment.id mkFilePayload (fun n a => rfl)]

/-- Witness for the CreateFilePayloads theorem: at the fixture the
call fails with an empty stat list and succeeds with the matching
one. -/
theorem createFilePayloads_spec_witness :
    createFilePayloads (freshSession exampleContainer) [] =
      (false, freshSession exampleContainer) ∧
    (createFilePayloads (freshSession exampleContainer) exampleInfos).1 = true :=
  ⟨(createFilePayloads_spec (freshSession exampleContainer) []).1 (by decide),
   ((createFilePayloads_spec (freshSession exampleContainer) exampleInfos).2 rfl).1⟩

/-- C4 counterexample: with the cancellation optimization disabled the
fixture session hands all three queued payloads to the connections
manager inside the single SendPayloads call, not only the first
one. -/
theorem sendPayloads_first_only_counterexample :
    (sentPayloads (sendPayloads exampleSession false).2).length = 3 ∧
    (sentPayloads (sendPayloads exampleSession false).2).length ≠ 1 :=
  ⟨rfl, by decide⟩

/-- C4 amended: SendPayloads with the cancellation optimization
enabled sends only the first queued payload to the connections
manager; with it disabled it sends every queued payload at once.  In
both cases each send is tagged with the tracker as status listener,
the stored weak tracker reference is lockable afterward, and the
subsequent SendNextPayload calls dispatch exactly the queued payloads
not sent by SendPayloads itself. -/
theorem sendPayloads_spec (s : Session) (k : Nat) :
    (sendPayloads s true).2 =
      Effect.logEvent EventType.SEND_ATTACHMENTS_START s.sessionId ::
        ((sendQueue s).take 1).map (fun p => Effect.sentPayload p true) ∧
    (sendPayloads s false).2 =
      Effect.logEvent EventType.SEND_ATTACHMENTS_START s.sessionId ::
        (sendQueue s).map (fun p => Effect.sentPayload p true) ∧
    payloadTrackerLockable (sendPayloads s true).1 = true ∧
    payloadTrackerLockable (sendPayloads s false).1 = true ∧
    sentPayloads (iterateSendNext (sendPayloads s true).1 k).2 =
      ((sendQueue s).drop 1).take k ∧
    sentPayloads (iterateSendNext (sendPayloads s false).1 k).2 = [] := by
  refine ⟨rfl, rfl, rfl, rfl, ?_, ?_⟩
  · rw [iterateSendNext_trace]
    have hq : sendQueue (sendPayloads s true).1 = sendQueue s := rfl
    have hc : (sendPayloads s true).1.sendCursor = ((sendQueue s).take 1).length := rfl
    rw [hq, hc]
    cases (sendQueue s) with
    | nil => simp
    | cons p rest => simp
  · rw [iterateSendNext_trace]
    have hq : sendQueue (sendPayloads s false).1 = sendQueue s := rfl
    have hc : (sendPayloads s false).1.sendCursor = (sendQueue s).length := rfl
    rw [hq, hc, List.drop_length]
    simp

/-- C5: repeated SendNextPayload calls dispatch the queued payloads
remaining past the cursor, file payloads before text payloads, in
queue order; and with a duplicate-free queue the already dispatched
prefix together with the newly dispatched payloads stays
duplicate-free, so no payload is ever sent twice. -/
theorem sendNextPayload_spec (s : Session) (k : Nat) :
    sentPayloads (iterateSendNext s k).2 =
      ((s.filePayloads ++ s.textPayloads).drop s.sendCursor).take k ∧
    ((s.filePayloads ++ s.textPayloads).Nodup →
      (((s.filePayloads ++ s.textPayloads).take s.sendCursor) ++
        sentPayloads (iterateSendNext s k).2).Nodup) := by
  have ht := iterateSendNext_trace s k
  simp only [sendQueue] at ht
  refine ⟨ht, ?_⟩
  intro hnd
  rw [ht]
  have hsub : (((s.filePayloads ++ s.textPayloads).take s.sendCursor) ++
      (((s.filePayloads ++ s.textPayloads).drop s.sendCursor).take k)).Sublist
        (s.filePayloads ++ s.textPayloads) := by
    have h2 := List.Sublist.append
      (List.Sublist.refl ((s.filePayloads ++ s.textPayloads).take s.sendCursor))
      (List.take_sublist k ((s.filePayloads ++ s.textPayloads).drop s.sendCursor))
    simpa [List.take_append_drop] using h2
  exact List.Nodup.sublist hsub hnd

/-- Witness for the SendNextPayload theorem: after the fixture
SendPayloads call with the optimization enabled, two further calls
dispatch the two text payloads and the combined dispatch list stays
duplicate-free. -/
theorem sendNextPayload_spec_witness :
    ((((sendPayloads exampleSession true).1.filePayloads ++
        (sendPayloads exampleSession true).1.textPayloads).take
          (sendPayloads exampleSession true).1.sendCursor) ++
      sentPayloads (iterateSendNext (sendPayloads exampleSession true).1 2).2).Nodup :=
  (sendNextPayload_spec (sendPayloads exampleSession true).1 2).2 (by decide)

/-- C7 counterexample: creating the wifi-credential payload of the
fixture appends it to the dedicated wifi sequence and leaves the file
payload sequence empty, so the payload is not appended into the file
payload sequence. -/
theorem wifiPayloads_not_in_file_sequence :
    (createWifiCredentialsPayloads (freshSession exampleContainer)).filePayloads = [] ∧
    (createWifiCredentialsPayloads (freshSession exampleContainer)).wifiPayloads.length = 1 :=
  ⟨rfl, rfl⟩

/-- C7 amended: CreateWifiCredentialsPayloads serializes, for every
structured-credential attachment, a credentials sub-message carrying
the password and hidden-ssid flag into a bytes payload, assigns the
payload a fresh id recorded in the attachment-payload map under the
attachment id, and appends the payload to the dedicated
wifi-credentials payload sequence, leaving the file and text payload
sequences untouched. -/
theorem createWifiCredentialsPayloads_spec (s : Session) :
    (createWifiCredentialsPayloads s).filePayloads = s.filePayloads ∧
    (createWifiCredentialsPayloads s).textPayloads = s.textPayloads ∧
    ((createWifiCredentialsPayloads s).wifiPayloads.take s.wifiPayloads.length =
      s.wifiPayloads) ∧
    (((createWifiCredentialsPayloads s).wifiPayloads.drop s.wifiPayloads.length).map
        Payload.content =
      s.container.wifiAttachments.map (fun a =>
        PayloadContent.bytes (encodeWifiCredentials a.password a.isHidden))) ∧
    (∀ a : WifiCredentialsAttachment,
        decodeWifiCredentials (encodeWifiCredentials a.password a.isHidden) =
          some (a.password, a.isHidden)) ∧
    ((createWifiCredentialsPayloads s).attachmentPayloadMap =
      s.attachmentPayloadMap ++
        List.zipWith (fun (a : WifiCredentialsAttachment) (p : Payload) => (a.id, p.id))
          s.container.wifiAttachments
          ((createWifiCredentialsPayloads s).wifiPayloads.drop s.wifiPayloads.length)) := by
  have hpay : (createWifiCredentialsPayloads s).wifiPayloads =
      s.wifiPayloads ++
        payloadsFrom mkWifiPayload s.nextPayloadId s.container.wifiAttachments := rfl
  refine ⟨rfl, rfl, ?_, ?_, ?_, ?_⟩
  · rw [hpay, List.take_left]
  · rw [hpay, List.drop_left]
    exact payloadsFrom_map_content mkWifiPayload
      (fun a => PayloadContent.bytes (encodeWifiCredentials a.password a.isHidden))
      (fun n a => rfl) s.nextPayloadId s.container.wifiAttachments
  · intro a
    cases h : a.isHidden <;>
      simp [encodeWifiCredentials, decodeWifiCredentials, h, String.toList]
  · rw [hpay, List.drop_left]
    have hm : (createWifiCredentialsPayloads s).attachmentPayloadMap =
        s.attachmentPayloadMap ++
          mapEntriesFrom WifiCredentialsAttachment.id s.nextPayloadId
            s.container.wifiAttachments := rfl
    rw [hm]
    exact congrArg (fun x => s.attachmentPayloadMap ++ x)
      (mapEntriesFrom_eq_zipWith WifiCredentialsAttachment.id mkWifiPayload
        (fun n a => rfl) s.nextPayloadId s.container.wifiAttachments)

/-- C3: SendIntroduction fails writing nothing when the text, file and
wifi payload sequences are all empty; with at least one payload it
succeeds and the written frame is a V1 INTRODUCTION frame with start
transfer set carrying one metadata record per attachment whose id,
title or name, type, size, mime type where applicable and payload id
exactly match the attachment fields and the payload ids recorded in
the attachment-payload map (the id of the created payload in the same
position). -/
theorem sendIntroduction_spec (s : Session) (c : AttachmentContainer)
    (infos : List FileInfo)
    (hlen : infos.length = c.fileAttachments.length)
    (hnd : (containerIds c).Nodup) :
    (allPayloadsEmpty s = true → sendIntroduction s = (false, s, [])) ∧
    (allPayloadsEmpty s = false →
      (sendIntroduction s).1 = true ∧
      (sendIntroduction s).2.2 =
        [Effect.wroteFrame (Frame.v1 (V1FrameContent.introduction (introFrameContent s))),
         Effect.logEvent EventType.SEND_INTRODUCTION s.sessionId] ∧
      (introFrameContent s).startTransfer = true) ∧
    ((introFrameContent (sessionAfterCreates c infos)).textMetadata.length =
      c.textAttachments.length) ∧
    ((introFrameContent (sessionAfterCreates c infos)).textMetadata =
      List.zipWith
        (fun (a : TextAttachment) (p : Payload) =>
          ({ id := a.id, textTitle := a.textTitle, ttype := a.ttype, size := a.size,
             payloadId := p.id } : TextMetadata))
        c.textAttachments (sessionAfterCreates c infos).textPayloads) ∧
    ((introFrameContent (sessionAfterCreates c infos)).fileMetadata =
      List.zipWith
        (fun (a : FileAttachment) (p : Payload) =>
          ({ id := a.id, name := a.fileName, ftype := a.ftype, size := a.size,
             payloadId := p.id, mimeType := a.mimeType } : FileMetadata))
        (sessionAfterCreates c infos).container.fileAttachments
        (sessionAfterCreates c infos).filePayloads) ∧
    ((sessionAfterCreates c infos).container.fileAttachments.map FileAttachment.size =
      infos.map FileInfo.size) ∧
    ((introFrameContent (sessionAfterCreates c infos)).wifiCredentialsMetadata =
      List.zipWith
        (fun (a : WifiCredentialsAttachment) (p : Payload) =>
          ({ id := a.id, ssid := a.ssid, securityType := a.securityType,
             payloadId := p.id } : WifiCredentialsMetadata))
        c.wifiAttachments (sessionAfterCreates c infos).wifiPayloads) := by
  have hs0 : sessionAfterCreates c infos =
      { sessionId := 0, endpointId := "ABCD",
        container :=
          { textAttachments := c.textAttachments,
            fileAttachments := List.zipWith updateFileSize c.fileAttachments infos,
            wifiAttachments := c.wifiAttachments },
        textPayloads :=
          payloadsFrom mkTextPayload c.fileAttachments.length c.textAttachments,
        filePayloads :=
          payloadsFrom mkFilePayload 0 (List.zipWith updateFileSize c.fileAttachments infos),
        wifiPayloads :=
          payloadsFrom mkWifiPayload (c.fileAttachments.length + c.textAttachments.length)
            c.wifiAttachments,
        attachmentPayloadMap :=
          mapEntriesFrom FileAttachment.id 0
              (List.zipWith updateFileSize c.fileAttachments infos) ++
            (mapEntriesFrom TextAttachment.id c.fileAttachments.length c.textAttachments ++
              mapEntriesFrom WifiCredentialsAttachment.id
                (c.fileAttachments.length + c.textAttachments.length) c.wifiAttachments),
        nextPayloadId :=
          c.fileAttachments.length + c.textAttachments.length + c.wifiAttachments.length,
        connected := false, token := none, osType := none, clock := 0,
        timerDeadline := none, responseCallbackRegistered := false,
        trackerStrongOwned := false, sendCursor := 0 } := by
    simp [sessionAfterCreates, createFilePayloads, createTextPayloads,
          createWifiCredentialsPayloads, freshSession, hlen]
  simp only [containerIds] at hnd
  have hnd1 := List.nodup_append.mp hnd
  obtain ⟨hndF, hndTW, hdisF⟩ := hnd1
  have hnd2 := List.nodup_append.mp hndTW
  obtain ⟨hndT, hndW, hdisTW⟩ := hnd2
  have hkeysF : (mapEntriesFrom FileAttachment.id 0
      (List.zipWith updateFileSize c.fileAttachments infos)).map Prod.fst =
      c.fileAttachments.map FileAttachment.id := by
    rw [mapEntriesFrom_keys]
    exact zipWith_updateFileSize_id c.fileAttachments infos hlen
  have hndUpd : ((List.zipWith updateFileSize c.fileAttachments infos).map
      FileAttachment.id).Nodup := by
    rw [zipWith_updateFileSize_id c.fileAttachments infos hlen]
    exact hndF
  have hlkF : ∀ (i : Nat)
      (hi : i < (List.zipWith updateFileSize c.fileAttachments infos).length),
      lookupId
        (mapEntriesFrom FileAttachment.id 0
            (List.zipWith updateFileSize c.fileAttachments infos) ++
          (mapEntriesFrom TextAttachment.id c.fileAttachments.length c.textAttachments ++
            mapEntriesFrom WifiCredentialsAttachment.id
              (c.fileAttachments.length + c.textAttachments.length) c.wifiAttachments))
        (FileAttachment.id
          ((List.zipWith updateFileSize c.fileAttachments infos).get ⟨i, hi⟩)) =
        some (0 + i) := by
    intro i hi
    exact lookupId_append_left _ _ _ _
      (mapEntriesFrom_lookupId FileAttachment.id _ hndUpd 0 i hi)
  have hlkT : ∀ (i : Nat) (hi : i < c.textAttachments.length),
      lookupId
        (mapEntriesFrom FileAttachment.id 0
            (List.zipWith updateFileSize c.fileAttachments infos) ++
          (mapEntriesFrom TextAttachment.id c.fileAttachments.length c.textAttachments ++
            mapEntriesFrom WifiCredentialsAttachment.id
              (c.fileAttachments.length + c.textAttachments.length) c.wifiAttachments))
        (TextAttachment.id (c.textAttachments.get ⟨i, hi⟩)) =
        some (c.fileAttachments.length + i) := by
    intro i hi
    have hmemT : TextAttachment.id (c.textAttachments.get ⟨i, hi⟩) ∈
        c.textAttachments.map TextAttachment.id :=
      List.mem_map_of_mem TextAttachment.id (List.get_mem c.textAttachments i hi)
    have hninF : TextAttachment.id (c.textAttachments.get ⟨i, hi⟩) ∉
        c.fileAttachments.map FileAttachment.id := by
      intro hmem
      exact hdisF hmem (List.mem_append_left _ hmemT)
    rw [lookupId_append_right _ _ _ (by rw [hkeysF]; exact hninF)]
    exact lookupId_append_left _ _ _ _
      (mapEntriesFrom_lookupId TextAttachment.id _ hndT c.fileAttachments.length i hi)
  have hlkW : ∀ (i : Nat) (hi : i < c.wifiAttachments.length),
      lookupId
        (mapEntriesFrom FileAttachment.id 0
            (List.zipWith updateFileSize c.fileAttachments infos) ++
          (mapEntriesFrom TextAttachment.id c.fileAttachments.length c.textAttachments ++
            mapEntriesFrom WifiCredentialsAttachment.id
              (c.fileAttachments.length + c.textAttachments.length) c.wifiAttachments))
        (WifiCredentialsAttachment.id (c.wifiAttachments.get ⟨i, hi⟩)) =
        some (c.fileAttachments.length + c.textAttachments.length + i) := by
    intro i hi
    have hmemW : WifiCredentialsAttachment.id (c.wifiAttachments.get ⟨i, hi⟩) ∈
        c.wifiAttachments.map WifiCredentialsAttachment.id :=
      List.mem_map_of_mem WifiCredentialsAttachment.id (List.get_mem c.wifiAttachments i hi)
    have hninF : WifiCredentialsAttachment.id (c.wifiAttachments.get ⟨i, hi⟩) ∉
        c.fileAttachments.map FileAttachment.id := by
      intro hmem
      exact hdisF hmem (List.mem_append_right _ hmemW)
    have hninT : WifiCredentialsAttachment.id (c.wifiAttachments.get ⟨i, hi⟩) ∉
        c.textAttachments.map TextAttachment.id := by
      intro hmem
      exact hdisTW hmem hmemW
    rw [lookupId_append_right _ _ _ (by rw [hkeysF]; exact hninF)]
    rw [lookupId_append_right _ _ _ (by rw [mapEntriesFrom_keys]; exact hninT)]
    exact mapEntriesFrom_lookupId WifiCredentialsAttachment.id _ hndW
      (c.fileAttachments.length + c.textAttachments.length) i hi
  refine ⟨?_, ?_, ?_, ?_, ?_, ?_, ?_⟩
  · intro hp
    simp [sendIntroduction, hp]
  · intro hp
    refine ⟨by simp [sendIntroduction, hp], by simp [sendIntroduction, hp],
            by simp [introFrameContent]⟩
  · rw [hs0]
    simp [introFrameContent, payloadsFrom_length]
  · rw [hs0]
    simp only [introFrameContent]
    exact map_build_eq_zipWith
      (fun (a : TextAttachment) (pid : Nat) =>
        ({ id := a.id, textTitle := a.textTitle, ttype := a.ttype, size := a.size,
           payloadId := pid } : TextMetadata))
      TextAttachment.id mkTextPayload (fun n a => rfl) _ c.textAttachments
      c.fileAttachments.length hlkT
  · rw [hs0]
    simp only [introFrameContent]
    exact map_build_eq_zipWith
      (fun (a : FileAttachment) (pid : Nat) =>
        ({ id := a.id, name := a.fileName, ftype := a.ftype, size := a.size,
           payloadId := pid, mimeType := a.mimeType } : FileMetadata))
      FileAttachment.id mkFilePayload (fun n a => rfl) _
      (List.zipWith updateFileSize c.fileAttachments infos) 0 hlkF
  · rw [hs0]
    exact zipWith_updateFileSize_size c.fileAttachments infos hlen
  · rw [hs0]
    simp only [introFrameContent]
    exact map_build_eq_zipWith
      (fun (a : WifiCredentialsAttachment) (pid : Nat) =>
        ({ id := a.id, ssid := a.ssid, securityType := a.securityType,
           payloadId := pid } : WifiCredentialsMetadata))
      WifiCredentialsAttachment.id mkWifiPayload (fun n a => rfl) _ c.wifiAttachments
      (c.fileAttachments.length + c.textAttachments.length) hlkW

/-- Witness for the SendIntroduction theorem: the fixture session has
payloads, the introduction succeeds and its text metadata list has one
record per text attachment. -/
theorem sendIntroduction_spec_witness :
    (sendIntroduction exampleSession).1 = true ∧
    (introFrameContent exampleSession).textMetadata.length =
      exampleContainer.textAttachments.length :=
  ⟨((sendIntroduction_spec exampleSession exampleContainer exampleInfos rfl
      (by decide)).2.1 rfl).1,
   (sendIntroduction_spec exampleSession exampleContainer exampleInfos rfl
      (by decide)).2.2.1⟩

/-! Lemmas about the InputStream Skip loop. -/

theorem skipRun_zero (read : Nat → Nat → Except Exception Bytes) (i n : Nat)
    (h : ¬ 0 < n) : skipRun read i n = ([], none) := by
  rw [skipRun]
  simp [h]

theorem skipRun_pos_ok (read : Nat → Nat → Except Exception Bytes) (i n : Nat)
    (h : 0 < n) (b : Bytes) (hr : read i (min n kSkipBufferSize) = Except.ok b) :
    skipRun read i n =
      (min n kSkipBufferSize :: (skipRun read (i + 1) (n - min n kSkipBufferSize)).1,
       (skipRun read (i + 1) (n - min n kSkipBufferSize)).2) := by
  rw [skipRun]
  simp [h, hr]

theorem skipRun_pos_err (read : Nat → Nat → Except Exception Bytes) (i n : Nat)
    (h : 0 < n) (e : Exception)
    (hr : read i (min n kSkipBufferSize) = Except.error e) :
    skipRun read i n = ([min n kSkipBufferSize], some e) := by
  rw [skipRun]
  simp [h, hr]

theorem skipRequests_zero (n : Nat) (h : ¬ 0 < n) : skipRequests n = [] := by
  rw [skipRequests]
  simp [h]

theorem skipRequests_pos (n : Nat) (h : 0 < n) :
    skipRequests n =
      min n kSkipBufferSize :: skipRequests (n - min n kSkipBufferSize) := by
  rw [skipRequests]
  simp [h]

theorem isOk_exists_ok (r : Except Exception Bytes) (h : r.isOk = true) :
    ∃ b, r = Except.ok b := by
  cases r with
  | ok b => exact ⟨b, rfl⟩
  | error e => simp [Except.isOk, Except.toBool] at h

theorem isOk_exists_err (r : Except Exception Bytes) (h : r.isOk = false) :
    ∃ e, r = Except.error e := by
  cases r with
  | ok b => simp [Except.isOk, Except.toBool] at h
  | error e => exact ⟨e, rfl⟩

theorem skipRun_all_ok (read : Nat → Nat → Except Exception Bytes)
    (hok : ∀ k sz, (read k sz).isOk = true) :
    ∀ (n i : Nat), skipRun read i n = (skipRequests n, none) := by
  intro n
  induction n using Nat.strong_induction_on with
  | _ n ih =>
      intro i
      by_cases h : 0 < n
      · obtain ⟨b, hb⟩ := isOk_exists_ok _ (hok i (min n kSkipBufferSize))
        have hb0 : 0 < kSkipBufferSize := by simp [kSkipBufferSize]
        have hlt : n - min n kSkipBufferSize < n := by omega
        rw [skipRun_pos_ok read i n h b hb, skipRequests_pos n h, ih _ hlt (i + 1)]
      · rw [skipRun_zero read i n h, skipRequests_zero n h]

theorem skipRequests_length : ∀ n : Nat,
    (skipRequests n).length = (n + kSkipBufferSize - 1) / kSkipBufferSize := by
  intro n
  induction n using Nat.strong_induction_on with
  | _ n ih =>
      have hb0 : 0 < kSkipBufferSize := by simp [kSkipBufferSize]
      by_cases h : 0 < n
      · rw [skipRequests_pos n h]
        by_cases hle : n ≤ kSkipBufferSize
        · have hmin : min n kSkipBufferSize = n := Nat.min_eq_left hle
          rw [hmin, Nat.sub_self n, skipRequests_zero 0 (by omega)]
          have hdiv : (n + kSkipBufferSize - 1) / kSkipBufferSize = 1 := by
            apply Nat.div_eq_of_lt_le
            · omega
            · omega
          simp [hdiv]
        · have hgt : kSkipBufferSize < n := Nat.lt_of_not_le hle
          have hmin : min n kSkipBufferSize = kSkipBufferSize :=
            Nat.min_eq_right (Nat.le_of_lt hgt)
          rw [hmin]
          have ihr := ih (n - kSkipBufferSize) (Nat.sub_lt h hb0)
          rw [List.length_cons, ihr]
          have h1 : n - kSkipBufferSize + kSkipBufferSize - 1 = n - 1 := by omega
          have h2 : n + kSkipBufferSize - 1 = (n - 1) + kSkipBufferSize := by omega
          rw [h1, h2, Nat.add_div_right _ hb0]
      · rw [skipRequests_zero n h]
        have hn : n = 0 := by omega
        subst hn
        exact (Nat.div_eq_of_lt (by omega : 0 + kSkipBufferSize - 1 < kSkipBufferSize)).symm

theorem skipRun_congr (read read' : Nat → Nat → Except Exception Bytes)
    (hok : ∀ k sz, (read k sz).isOk = (read' k sz).isOk) :
    ∀ (n i : Nat), (skipRun read i n).1 = (skipRun read' i n).1 := by
  intro n
  induction n using Nat.strong_induction_on with
  | _ n ih =>
      intro i
      have hb0 : 0 < kSkipBufferSize := by simp [kSkipBufferSize]
      by_cases h : 0 < n
      · have hlt : n - min n kSkipBufferSize < n := by omega
        cases hr : read i (min n kSkipBufferSize) with
        | ok b =>
            have hro : (read' i (min n kSkipBufferSize)).isOk = true := by
              rw [← hok]
              rw [hr]
              rfl
            obtain ⟨b', hb'⟩ := isOk_exists_ok _ hro
            rw [skipRun_pos_ok read i n h b hr, skipRun_pos_ok read' i n h b' hb']
            simp [ih _ hlt (i + 1)]
        | error e =>
            have hro : (read' i (min n kSkipBufferSize)).isOk = false := by
              rw [← hok]
              rw [hr]
              rfl
            obtain ⟨e', he'⟩ := isOk_exists_err _ hro
            rw [skipRun_pos_err read i n h e hr, skipRun_pos_err read' i n h e' he']
      · rw [skipRun_zero read i n h, skipRun_zero read' i n h]

theorem skipRun_fail (read : Nat → Nat → Except Exception Bytes) (e : Exception) :
    ∀ (n i j : Nat), j < (skipRequests n).length →
      (∀ k sz, k < j → (read (i + k) sz).isOk = true) →
      (∀ sz, read (i + j) sz = Except.error e) →
      (skipRun read i n).2 = some e := by
  intro n
  induction n using Nat.strong_induction_on with
  | _ n ih =>
      intro i j hj hpre herr
      have hb0 : 0 < kSkipBufferSize := by simp [kSkipBufferSize]
      have h : 0 < n := by
        by_contra h
        rw [skipRequests_zero n h] at hj
        simp at hj
      have hlt : n - min n kSkipBufferSize < n := by omega
      cases j with
      | zero =>
          have hr : read i (min n kSkipBufferSize) = Except.error e := by
            have := herr (min n kSkipBufferSize)
            simpa using this
          rw [skipRun_pos_err read i n h e hr]
      | succ j' =>
          have hro : (read i (min n kSkipBufferSize)).isOk = true := by
            have := hpre 0 (min n kSkipBufferSize) (Nat.succ_pos j')
            simpa using this
          obtain ⟨b, hb⟩ := isOk_exists_ok _ hro
          rw [skipRun_pos_ok read i n h b hb]
          have hj2 : j' < (skipRequests (n - min n kSkipBufferSize)).length := by
            rw [skipRequests_pos n h] at hj
            simpa using hj
          have hpre2 : ∀ k sz, k < j' → (read ((i + 1) + k) sz).isOk = true := by
            intro k sz hk
            have hidx : (i + 1) + k = i + (k + 1) := by omega
            rw [hidx]
            exact hpre (k + 1) sz (Nat.succ_lt_succ hk)
          have herr2 : ∀ sz, read ((i + 1) + j') sz = Except.error e := by
            intro sz
            have hidx : (i + 1) + j' = i + (j' + 1) := by omega
            rw [hidx]
            exact herr sz
          exact ih _ hlt (i + 1) j' hj2 hpre2 herr2

/-- C10: for every offset, if every underlying Read succeeds then
InputStream Skip returns success with value exactly the offset,
issuing ceiling(offset / 65536) Read calls whose requested sizes are
min(bytes remaining, 65536); the issued requests and the result
depend only on the ok-or-error pattern of the reads, not on how many
bytes each Read actually returned; and if some Read fails, Skip
returns exactly that exception. -/
theorem inputStreamSkip_spec (read read' : Nat → Nat → Except Exception Bytes)
    (offset : Nat) :
    ((∀ k sz, (read k sz).isOk = true) →
      InputStream.Skip read offset = Except.ok offset ∧
      (skipRun read 0 offset).1 = skipRequests offset) ∧
    ((skipRequests offset).length =
      (offset + kSkipBufferSize - 1) / kSkipBufferSize) ∧
    ((∀ k sz, (read k sz).isOk = (read' k sz).isOk) →
      (skipRun read 0 offset).1 = (skipRun read' 0 offset).1) ∧
    (∀ j e, j < (skipRequests offset).length →
      (∀ k sz, k < j → (read k sz).isOk = true) →
      (∀ sz, read j sz = Except.error e) →
      InputStream.Skip read offset = Except.error e) := by
  refine ⟨?_, skipRequests_length offset, ?_, ?_⟩
  · intro hok
    constructor
    · simp [InputStream.Skip, skipRun_all_ok read hok offset 0]
    · simp [skipRun_all_ok read hok offset 0]
  · intro hok
    exact skipRun_congr read read' hok offset 0
  · intro j e hj hpre herr
    have hpre0 : ∀ k sz, k < j → (read (0 + k) sz).isOk = true := by
      intro k sz hk
      simpa using hpre k sz hk
    have herr0 : ∀ sz, read (0 + j) sz = Except.error e := by
      intro sz
      simpa using herr sz
    have := skipRun_fail read e offset 0 j hj hpre0 herr0
    simp [InputStream.Skip, this]

/-- Witness for the Skip theorem: an all-ok reader skips 100000 bytes
in two Read calls and returns 100000; an immediately failing reader
surfaces its exception. -/
theorem inputStreamSkip_spec_witness :
    InputStream.Skip (fun _ _ => Except.ok ([] : Bytes)) 100000 = Except.ok 100000 ∧
    (skipRequests 100000).length = 2 ∧
    InputStream.Skip (fun _ _ => Except.error Exception.kIo) 3 =
      Except.error Exception.kIo := by
  refine ⟨?_, ?_, ?_⟩
  · exact ((inputStreamSkip_spec (fun _ _ => Except.ok [])
      (fun _ _ => Except.ok []) 100000).1 (fun k sz => rfl)).1
  · rw [(inputStreamSkip_spec (fun _ _ => Except.ok [])
      (fun _ _ => Except.ok []) 100000).2.1]
    norm_num [kSkipBufferSize]
  · apply (inputStreamSkip_spec (fun _ _ => Except.error Exception.kIo)
      (fun _ _ => Except.error Exception.kIo) 3).2.2.2 0 Exception.kIo
    · rw [(inputStreamSkip_spec (fun _ _ => Except.error Exception.kIo)
        (fun _ _ => Except.error Exception.kIo) 3).2.1]
      norm_num [kSkipBufferSize]
    · intro k sz hk
      exact absurd hk (Nat.not_lt_zero k)
    · intro sz
      rfl

end NearbySharing
